import Mathlib

/-
Verification of the debt snapshot comparator and improvement validator.

The definitions below are shallow embeddings of the Python sources:
  namespace PVDI — src/.prodigy/prodigy-validate-debtmap-improvement.py
  namespace PVD  — src/prodigy_validate_debtmap.py
  namespace VDI  — src/validate_debtmap_improvement.py
  namespace CD   — src/.prodigy/compare_debt.py

Debt scores and complexities are modelled as rationals.  Python dicts built
by comprehensions over item lists are modelled by their key collection (a
Finset, since only membership and counts are consumed) together with a
last-occurrence-wins value lookup (a left fold), which is exactly the
semantics of a dict comprehension whose keys collide.
-/

namespace PVDI

/- A standardized debt item as produced by extract_debt_items: only the
fields consumed by identify_improvements / calculate_metrics /
calculate_improvement_score are carried. -/
structure Item where
  location : String
  score : ℚ
  complexity : ℚ
deriving DecidableEq

/- The key collection of the dict built by
`before_map = ...item['location']: item... for item in before_items`. -/
def locations (items : List Item) : Finset String :=
  (items.map Item.location).toFinset

/- The score stored in that dict at a given location: the last item in the
list with that location wins (dict comprehension overwrite order).  The
default 0 is never consumed, since the dict is only read at keys present
in it. -/
def last_score (items : List Item) (loc : String) : ℚ :=
  items.foldl (fun acc it => if it.location = loc then it.score else acc) 0

/- identify_improvements: locations of resolved items (in before, gone in
after). -/
def resolved_locations (before after : List Item) : Finset String :=
  locations before \ locations after

/- identify_improvements: locations of new items (in after, absent in
before). -/
def new_locations (before after : List Item) : Finset String :=
  locations after \ locations before

/- Locations present in both snapshots. -/
def common_locations (before after : List Item) : Finset String :=
  locations before ∩ locations after

/- identify_improvements: common locations whose after score strictly
dropped (`after_item['score'] < before_item['score']`). -/
def improved_locations (before after : List Item) : Finset String :=
  (common_locations before after).filter
    (fun loc => last_score after loc < last_score before loc)

/- calculate_improvement_score: resolved items with score >= 8. -/
def resolved_critical (before after : List Item) : ℕ :=
  ((resolved_locations before after).filter
    (fun loc => 8 ≤ last_score before loc)).card

/- calculate_improvement_score: new items with score >= 8. -/
def new_critical (before after : List Item) : ℕ :=
  ((new_locations before after).filter
    (fun loc => 8 ≤ last_score after loc)).card

/- calculate_metrics: total_score. -/
def total_score (items : List Item) : ℚ :=
  (items.map Item.score).sum

/- calculate_metrics: critical_items (score >= 8), counted over the raw
item list. -/
def critical_items (items : List Item) : ℕ :=
  (items.filter (fun it => decide (8 ≤ it.score))).length

/- calculate_metrics: average_complexity, 0 for an empty snapshot. -/
def average_complexity (items : List Item) : ℚ :=
  if items.isEmpty then 0 else (items.map Item.complexity).sum / items.length

/- Sub-score 1 of calculate_improvement_score (weight 0.4):
`(resolved_critical / total_critical_before * 100) if total_critical_before > 0 else 0`. -/
def resolved_priority_score (resolvedCrit totalCritBefore : ℕ) : ℚ :=
  if 0 < totalCritBefore then (resolvedCrit : ℚ) / (totalCritBefore : ℚ) * 100 else 0

/- Sub-score 2 (weight 0.3):
`(score_reduction / before_total * 100) if before_total > 0 else 0`. -/
def score_improvement_pct (totalBefore totalAfter : ℚ) : ℚ :=
  if 0 < totalBefore then (totalBefore - totalAfter) / totalBefore * 100 else 0

/- Sub-score 3 (weight 0.2): same shape over average complexity. -/
def complexity_improvement_pct (avgBefore avgAfter : ℚ) : ℚ :=
  if 0 < avgBefore then (avgBefore - avgAfter) / avgBefore * 100 else 0

/- Sub-score 4 (weight 0.1):
`100 if new_critical == 0 else max(0, 100 - (new_critical * 25))`. -/
def no_regression_score (newCrit : ℕ) : ℚ :=
  if newCrit = 0 then 100 else max 0 (100 - (newCrit : ℚ) * 25)

/- calculate_improvement_score: the weighted composite, clamped to
[0, 100] by `min(100, max(0, improvement_score))`. -/
def calculate_improvement_score (before after : List Item) : ℚ :=
  min 100 (max 0
    (resolved_priority_score (resolved_critical before after) (critical_items before) * 0.4 +
     score_improvement_pct (total_score before) (total_score after) * 0.3 +
     complexity_improvement_pct (average_complexity before) (average_complexity after) * 0.2 +
     no_regression_score (new_critical before after) * 0.1))

/- determine_status: thresholds 75 and 40. -/
def determine_status (s : ℚ) : String :=
  if 75 ≤ s then "complete" else if 40 ≤ s then "incomplete" else "failed"

/- One record of identify_improvements' improved_items list. -/
structure ImprovedRecord where
  location : String
  before_score : ℚ
  after_score : ℚ
  improvement : ℚ
deriving DecidableEq

/- identify_gaps derives gap identifiers from an item's location via
`location.replace(':', '_').replace('/', '_')`; both replacements act on
single characters, so together they are a character map. -/
def sanitize_location (s : String) : String :=
  String.mk (s.data.map (fun c => if c = ':' then '_' else if c = '/' then '_' else c))

/- The key set of the gaps dict produced by identify_gaps: one class of
keys per input group (unchanged critical items, improved-but-still-critical
records, new critical items), each key being a fixed class tag followed by
the sanitized location. -/
def gap_key_set (unchangedCritical : List Item) (improved : List ImprovedRecord)
    (newItems : List Item) : Finset String :=
  (unchangedCritical.map (fun it => "critical_debt_" ++ sanitize_location it.location)).toFinset ∪
  ((improved.filter (fun r => decide (8 ≤ r.after_score))).map
    (fun r => "insufficient_" ++ sanitize_location r.location)).toFinset ∪
  ((newItems.filter (fun it => decide (8 ≤ it.score))).map
    (fun it => "regression_" ++ sanitize_location it.location)).toFinset

/- A parsed JSON value, as returned by json.load in load_json_file. -/
inductive JValue where
  | null
  | bool (b : Bool)
  | num (q : ℚ)
  | str (s : String)
  | arr (elems : List JValue)
  | obj (fields : List (String × JValue))

/- Python truthiness of a parsed JSON value, as consumed by
`if not before_data or not after_data` in main. -/
def truthy : JValue → Bool
  | .null => false
  | .bool b => b
  | .num q => decide (q ≠ 0)
  | .str s => !s.isEmpty
  | .arr es => !es.isEmpty
  | .obj fs => !fs.isEmpty

/- The minimal failure document written by main when a snapshot cannot be
used (raw_output, which only echoes the two file paths, is not modelled). -/
structure FailureDoc where
  completion_percentage : ℚ
  status : String
  improvements : List String
  remaining_issues : List String
  gap_ids : List String
deriving DecidableEq

def unable_to_load_result : FailureDoc :=
  ⟨0, "failed", [], ["Unable to load debtmap JSON files"], []⟩

/- Outcome of main after loading: either the minimal failure document, or
the full comparison generate_validation_result(before, after). -/
inductive MainOutcome where
  | failure (doc : FailureDoc)
  | compared (before after : JValue)

/- main: load_json_file yields none on FileNotFoundError/JSONDecodeError;
`if not before_data or not after_data` selects the minimal failure
document, otherwise generate_validation_result runs on the two documents. -/
def main_validation : Option JValue → Option JValue → MainOutcome
  | some b, some a =>
      if truthy b && truthy a then .compared b a else .failure unable_to_load_result
  | some _, none => .failure unable_to_load_result
  | none, _ => .failure unable_to_load_result

/- Pointwise relation on after-snapshots: same location and complexity,
left score at most right score.  Used to state monotonicity of the
composite in the after scores. -/
def ScoreLE (x y : Item) : Prop :=
  x.location = y.location ∧ x.complexity = y.complexity ∧ x.score ≤ y.score

end PVDI

namespace PVD

/- calculate_improvement_score of prodigy_validate_debtmap.py, first
component: critical-resolution ratio with a fallback to the high-priority
ratio when there are no critical items before. -/
def resolved_high_priority (resolvedCrit criticalBefore resolvedHigh highBefore : ℕ) : ℚ :=
  if 0 < criticalBefore then (resolvedCrit : ℚ) / (criticalBefore : ℚ) * 100
  else if 0 < highBefore then (resolvedHigh : ℚ) / (highBefore : ℚ) * 100
  else 0

/- calculate_improvement_score of prodigy_validate_debtmap.py, fourth
component: `new_critical_penalty = 25 if new_critical > 0 else 0` and the
weighted term uses `100 - new_critical_penalty`. -/
def no_regression_component (newCritical : ℕ) : ℚ :=
  100 - (if 0 < newCritical then 25 else 0)

/- compare_items of prodigy_validate_debtmap.py: common locations whose
score strictly increased (`after_score > before_score`). -/
def worsened_locations (before after : List PVDI.Item) : Finset String :=
  (PVDI.common_locations before after).filter
    (fun loc => PVDI.last_score before loc < PVDI.last_score after loc)

end PVD

namespace VDI

/- DebtmapValidator.validate: status from the improvement score, with
GOOD_THRESHOLD = 75 and MINOR_THRESHOLD = 40. -/
def status_of (score : ℚ) : String :=
  if 75 ≤ score then "complete" else if 40 ≤ score then "incomplete" else "insufficient"

end VDI

namespace CD

/- Metrics sub-object of a compare_debt.py item.  Fields read through
`metrics.get(..., default)` with a significant present/absent distinction
(the score fallback chain) are Options; fields only read with default 0
are plain rationals, absent modelled as the default. -/
structure Metrics where
  total_complexity : Option ℚ
  complexity : Option ℚ
  cognitive_complexity : Option ℚ
  max_complexity : ℚ
  avg_complexity : ℚ
  is_god_object : Bool
deriving DecidableEq

inductive ItemKind where
  | file
  | func
deriving DecidableEq

/- An item produced by extract_items: a File entry (path from
metrics.path) or a Function entry (path and name from metrics). -/
structure Item where
  kind : ItemKind
  path : String
  name : String
  metrics : Metrics
deriving DecidableEq

abbrev Key := ItemKind × String × String

/- get_item_key: ('file', path, '') or ('function', path, name). -/
def get_item_key (it : Item) : Key :=
  match it.kind with
  | .file => (.file, it.path, "")
  | .func => (.func, it.path, it.name)

/- get_score: total_complexity, else complexity, else
cognitive_complexity, else 0. -/
def get_score (it : Item) : ℚ :=
  match it.metrics.total_complexity with
  | some v => v
  | none =>
    match it.metrics.complexity with
    | some v => v
    | none =>
      match it.metrics.cognitive_complexity with
      | some v => v
      | none => 0

/- is_problematic: god object, or max_complexity > 10, or
avg_complexity > 5, or cognitive_complexity > 15. -/
def is_problematic (it : Item) : Bool :=
  it.metrics.is_god_object ||
  decide (10 < it.metrics.max_complexity) ||
  decide (5 < it.metrics.avg_complexity) ||
  decide (15 < it.metrics.cognitive_complexity.getD 0)

/- Key collection of the before_map / after_map dicts of analyze_changes. -/
def keys (items : List Item) : Finset Key :=
  (items.map get_item_key).toFinset

/- Score of the dict entry at a key: last colliding item wins. -/
def last_score (items : List Item) (k : Key) : ℚ :=
  items.foldl (fun acc it => if get_item_key it = k then get_score it else acc) 0

/- is_problematic of the dict entry at a key. -/
def last_problematic (items : List Item) (k : Key) : Bool :=
  items.foldl (fun acc it => if get_item_key it = k then is_problematic it else acc) false

/- analyze_changes: `resolved = before_keys - after_keys`. -/
def resolved_keys (before after : List Item) : Finset Key :=
  keys before \ keys after

/- analyze_changes: `new_items = after_keys - before_keys`. -/
def new_keys (before after : List Item) : Finset Key :=
  keys after \ keys before

/- analyze_changes: `common_items = before_keys & after_keys`. -/
def common_keys (before after : List Item) : Finset Key :=
  keys before ∩ keys after

/- analyze_changes: keys classified improved (score dropped by more than
the 0.01 tolerance, or problematic became non-problematic). -/
def improved_keys (before after : List Item) : Finset Key :=
  (common_keys before after).filter
    (fun k => last_score after k < last_score before k - 0.01 ∨
      (last_problematic before k = true ∧ last_problematic after k = false))

/- analyze_changes: keys classified regressed (the elif branch: not
improved, and score rose by more than the tolerance or the item became
problematic). -/
def regressed_keys (before after : List Item) : Finset Key :=
  (common_keys before after).filter
    (fun k => ¬(last_score after k < last_score before k - 0.01 ∨
        (last_problematic before k = true ∧ last_problematic after k = false)) ∧
      (last_score before k + 0.01 < last_score after k ∨
        (last_problematic before k = false ∧ last_problematic after k = true)))

end CD

/- Helper lemmas.  First: the pointwise score ordering on after-snapshots
and its effect on each quantity consumed by calculate_improvement_score. -/

namespace PVDI

lemma scoreLE_refl (l : List Item) : List.Forall₂ ScoreLE l l := by
  induction l with
  | nil => exact List.Forall₂.nil
  | cons x xs ih => exact List.Forall₂.cons ⟨rfl, rfl, le_rfl⟩ ih

lemma forall₂_map_location {l₁ l₂ : List Item} (h : List.Forall₂ ScoreLE l₁ l₂) :
    l₁.map Item.location = l₂.map Item.location := by
  induction h with
  | nil => rfl
  | cons hxy _ ih =>
    simp only [List.map_cons]
    rw [hxy.1, ih]

lemma forall₂_map_complexity {l₁ l₂ : List Item} (h : List.Forall₂ ScoreLE l₁ l₂) :
    l₁.map Item.complexity = l₂.map Item.complexity := by
  induction h with
  | nil => rfl
  | cons hxy _ ih =>
    simp only [List.map_cons]
    rw [hxy.2.1, ih]

lemma forall₂_locations_eq {l₁ l₂ : List Item} (h : List.Forall₂ ScoreLE l₁ l₂) :
    locations l₁ = locations l₂ := by
  unfold locations
  rw [forall₂_map_location h]

lemma forall₂_total_score_le {l₁ l₂ : List Item} (h : List.Forall₂ ScoreLE l₁ l₂) :
    total_score l₁ ≤ total_score l₂ := by
  induction h with
  | nil => exact le_rfl
  | cons hxy _ ih =>
    unfold total_score at ih ⊢
    simp only [List.map_cons, List.sum_cons]
    exact add_le_add hxy.2.2 ih

lemma forall₂_last_score_le {l₁ l₂ : List Item} (h : List.Forall₂ ScoreLE l₁ l₂)
    (loc : String) : last_score l₁ loc ≤ last_score l₂ loc := by
  have main : ∀ {a b : List Item}, List.Forall₂ ScoreLE a b → ∀ acc₁ acc₂ : ℚ, acc₁ ≤ acc₂ →
      a.foldl (fun acc it => if it.location = loc then it.score else acc) acc₁ ≤
      b.foldl (fun acc it => if it.location = loc then it.score else acc) acc₂ := by
    intro a b hab
    induction hab with
    | nil =>
      intro acc₁ acc₂ hacc
      simpa using hacc
    | @cons x y xs ys hxy _ ih =>
      intro acc₁ acc₂ hacc
      simp only [List.foldl_cons]
      rcases hxy with ⟨hl, -, hs⟩
      rw [hl]
      by_cases hcase : y.location = loc
      · simp only [hcase, if_pos rfl]
        exact ih _ _ hs
      · rw [if_neg hcase, if_neg hcase]
        exact ih _ _ hacc
  exact main h 0 0 le_rfl

lemma forall₂_average_complexity {l₁ l₂ : List Item} (h : List.Forall₂ ScoreLE l₁ l₂) :
    average_complexity l₁ = average_complexity l₂ := by
  cases h with
  | nil => rfl
  | @cons x y xs ys hxy htail =>
    have hmap := forall₂_map_complexity (List.Forall₂.cons hxy htail)
    have hlen := List.Forall₂.length_eq (List.Forall₂.cons hxy htail)
    unfold average_complexity
    simp only [List.isEmpty_cons]
    rw [hmap, hlen]

lemma forall₂_resolved_critical (before : List Item) {l₁ l₂ : List Item}
    (h : List.Forall₂ ScoreLE l₁ l₂) :
    resolved_critical before l₁ = resolved_critical before l₂ := by
  unfold resolved_critical resolved_locations
  rw [forall₂_locations_eq h]

lemma forall₂_new_critical (before : List Item) {l₁ l₂ : List Item}
    (h : List.Forall₂ ScoreLE l₁ l₂) :
    new_critical before l₁ ≤ new_critical before l₂ := by
  unfold new_critical new_locations
  rw [forall₂_locations_eq h]
  apply Finset.card_le_card
  intro loc hmem
  rw [Finset.mem_filter] at hmem ⊢
  exact ⟨hmem.1, le_trans hmem.2 (forall₂_last_score_le h loc)⟩

lemma sip_antitone (tb : ℚ) {ta₁ ta₂ : ℚ} (h : ta₂ ≤ ta₁) :
    score_improvement_pct tb ta₁ ≤ score_improvement_pct tb ta₂ := by
  unfold score_improvement_pct
  split_ifs with htb
  · have h1 : tb - ta₁ ≤ tb - ta₂ := by linarith
    have h2 : (tb - ta₁) / tb ≤ (tb - ta₂) / tb := by
      apply div_le_div_of_nonneg_right h1 htb.le
    exact mul_le_mul_of_nonneg_right h2 (by norm_num)
  · exact le_rfl

lemma nrs_antitone {n₁ n₂ : ℕ} (h : n₁ ≤ n₂) :
    no_regression_score n₂ ≤ no_regression_score n₁ := by
  unfold no_regression_score
  by_cases h1 : n₁ = 0
  · subst h1
    rw [if_pos rfl]
    split_ifs with h2
    · exact le_rfl
    · apply max_le
      · norm_num
      · have h3 : (0 : ℚ) ≤ (n₂ : ℚ) * 25 := by positivity
        linarith
  · have h2 : ¬ n₂ = 0 := by omega
    rw [if_neg h1, if_neg h2]
    apply max_le_max le_rfl
    have hc : (n₁ : ℚ) ≤ (n₂ : ℚ) := by exact_mod_cast h
    linarith

lemma composite_mono (before : List Item) {l₁ l₂ : List Item}
    (h : List.Forall₂ ScoreLE l₁ l₂) :
    calculate_improvement_score before l₂ ≤ calculate_improvement_score before l₁ := by
  unfold calculate_improvement_score
  apply min_le_min le_rfl
  apply max_le_max le_rfl
  rw [forall₂_resolved_critical before h, forall₂_average_complexity h]
  have hs := sip_antitone (total_score before) (forall₂_total_score_le h)
  have hn := nrs_antitone (forall₂_new_critical before h)
  linarith

lemma forall₂_set :
    ∀ (l : List Item) (i : ℕ) (hi : i < l.length) (it : Item),
      it.location = (l.get ⟨i, hi⟩).location →
      it.complexity = (l.get ⟨i, hi⟩).complexity →
      it.score ≤ (l.get ⟨i, hi⟩).score →
      List.Forall₂ ScoreLE (l.set i it) l := by
  intro l
  induction l with
  | nil =>
    intro i hi
    exact absurd hi (Nat.not_lt_zero i)
  | cons x xs ih =>
    intro i hi it hl hc hs
    cases i with
    | zero => exact List.Forall₂.cons ⟨hl, hc, hs⟩ (scoreLE_refl xs)
    | succ j =>
      exact List.Forall₂.cons ⟨rfl, rfl, le_rfl⟩
        (ih j (Nat.lt_of_succ_lt_succ hi) it hl hc hs)

/- Self-comparison lemmas. -/

lemma resolved_locations_self (l : List Item) : resolved_locations l l = ∅ := by
  unfold resolved_locations
  exact Finset.sdiff_self _

lemma new_locations_self (l : List Item) : new_locations l l = ∅ := by
  unfold new_locations
  exact Finset.sdiff_self _

lemma improved_locations_self (l : List Item) : improved_locations l l = ∅ := by
  unfold improved_locations
  apply Finset.filter_false_of_mem
  intro loc _
  exact lt_irrefl _

lemma resolved_critical_self (l : List Item) : resolved_critical l l = 0 := by
  unfold resolved_critical
  rw [resolved_locations_self]
  simp

lemma new_critical_self (l : List Item) : new_critical l l = 0 := by
  unfold new_critical
  rw [new_locations_self]
  simp

lemma composite_self (l : List Item) : calculate_improvement_score l l = 10 := by
  unfold calculate_improvement_score
  rw [resolved_critical_self, new_critical_self]
  have h1 : resolved_priority_score 0 (critical_items l) = 0 := by
    unfold resolved_priority_score
    split_ifs <;> simp
  have h2 : score_improvement_pct (total_score l) (total_score l) = 0 := by
    unfold score_improvement_pct
    split_ifs <;> simp
  have h3 : complexity_improvement_pct (average_complexity l) (average_complexity l) = 0 := by
    unfold complexity_improvement_pct
    split_ifs <;> simp
  rw [h1, h2, h3]
  norm_num [no_regression_score]

lemma composite_nonneg (b a : List Item) : 0 ≤ calculate_improvement_score b a := by
  unfold calculate_improvement_score
  exact le_min (by norm_num) (le_max_left 0 _)

lemma composite_le_100 (b a : List Item) : calculate_improvement_score b a ≤ 100 := by
  unfold calculate_improvement_score
  exact min_le_left _ _

end PVDI

/- A generic partition fact over two finite key sets. -/
lemma finset_partition {α : Type} [DecidableEq α] (s t : Finset α) :
    Disjoint (s \ t) (t \ s) ∧ Disjoint (s \ t) (s ∩ t) ∧ Disjoint (t \ s) (s ∩ t) ∧
      ((s \ t) ∪ (t \ s) ∪ (s ∩ t) = s ∪ t) := by
  refine ⟨disjoint_sdiff_sdiff, ?_, ?_, ?_⟩
  · rw [Finset.disjoint_left]
    intro x hx hx2
    simp only [Finset.mem_sdiff, Finset.mem_inter] at hx hx2
    exact hx.2 hx2.2
  · rw [Finset.disjoint_left]
    intro x hx hx2
    simp only [Finset.mem_sdiff, Finset.mem_inter] at hx hx2
    exact hx.2 hx2.1
  · ext x
    simp only [Finset.mem_union, Finset.mem_sdiff, Finset.mem_inter]
    tauto

namespace CD

lemma improved_keys_self (l : List Item) : improved_keys l l = ∅ := by
  unfold improved_keys
  apply Finset.filter_false_of_mem
  intro k _
  rintro (h | ⟨h1, h2⟩)
  · linarith
  · rw [h1] at h2
    exact Bool.noConfusion h2

lemma regressed_keys_self (l : List Item) : regressed_keys l l = ∅ := by
  unfold regressed_keys
  apply Finset.filter_false_of_mem
  intro k _
  rintro ⟨-, h | ⟨h1, h2⟩⟩
  · linarith
  · rw [h1] at h2
    exact Bool.noConfusion h2

end CD

namespace PVD

lemma worsened_locations_self (l : List PVDI.Item) : worsened_locations l l = ∅ := by
  unfold worsened_locations
  apply Finset.filter_false_of_mem
  intro loc _
  exact lt_irrefl _

end PVD

/-- C1 counterexample: a before snapshot with a single item of score 5 has no
items at or above the critical threshold 8, yet the critical-resolution
sub-score computed by calculate_improvement_score is 0 there, not the
claimed 100. -/
theorem c1_vacuous_critical_counterexample :
    PVDI.critical_items [⟨"a", 5, 1⟩] = 0 ∧
    PVDI.resolved_priority_score
      (PVDI.resolved_critical [⟨"a", 5, 1⟩] []) (PVDI.critical_items [⟨"a", 5, 1⟩]) = 0 ∧
    (0 : ℚ) ≠ 100 := by
  refine ⟨by decide, by decide, by norm_num⟩

/-- C1 (amended): the critical-resolution sub-score equals
resolved_critical_count / before_critical_count × 100 when the before
snapshot has at least one critical item, and 0 (not 100) when it has none;
prodigy_validate_debtmap.py likewise yields 0 when both the critical and
high-priority before counts are zero. -/
theorem c1_vacuous_critical_amended :
    ∀ (before after : List PVDI.Item) (r rh : ℕ),
      PVDI.resolved_priority_score
          (PVDI.resolved_critical before after) (PVDI.critical_items before) =
        (if PVDI.critical_items before = 0 then 0
         else (PVDI.resolved_critical before after : ℚ) /
           (PVDI.critical_items before : ℚ) * 100) ∧
      PVD.resolved_high_priority r 0 rh 0 = 0 := by
  intro before after r rh
  constructor
  · unfold PVDI.resolved_priority_score
    rcases Nat.eq_zero_or_pos (PVDI.critical_items before) with h | h
    · rw [h]
      simp
    · rw [if_pos h, if_neg (Nat.pos_iff_ne_zero.mp h)]
  · unfold PVD.resolved_high_priority
    simp

/-- C2 counterexample: comparing the one-item snapshot at location "a" with
score 5 and complexity 2 against itself yields composite improvement score
10, refuting the claimed composite score 0. -/
theorem c2_self_comparison_counterexample :
    PVDI.calculate_improvement_score [⟨"a", 5, 2⟩] [⟨"a", 5, 2⟩] = 10 ∧ (10 : ℚ) ≠ 0 :=
  ⟨PVDI.composite_self [⟨"a", 5, 2⟩], by norm_num⟩

/-- C2 (amended): comparing a snapshot against itself yields zero resolved,
zero new, zero improved and zero regressed/worsened items, but the
composite improvement score is 10, not 0 (the no-new-critical sub-score is
100 and carries weight 0.1), and the status is "failed" since 10 < 40. -/
theorem c2_self_comparison_amended :
    ∀ (items : List PVDI.Item) (cds : List CD.Item),
      PVDI.resolved_locations items items = ∅ ∧
      PVDI.new_locations items items = ∅ ∧
      PVDI.improved_locations items items = ∅ ∧
      PVD.worsened_locations items items = ∅ ∧
      CD.improved_keys cds cds = ∅ ∧
      CD.regressed_keys cds cds = ∅ ∧
      PVDI.calculate_improvement_score items items = 10 ∧
      PVDI.determine_status (PVDI.calculate_improvement_score items items) = "failed" := by
  intro items cds
  refine ⟨PVDI.resolved_locations_self items, PVDI.new_locations_self items,
    PVDI.improved_locations_self items, PVD.worsened_locations_self items,
    CD.improved_keys_self cds, CD.regressed_keys_self cds,
    PVDI.composite_self items, ?_⟩
  rw [PVDI.composite_self items]
  norm_num [PVDI.determine_status]

/-- C3 counterexample: two items at the same location "a" with scores 3 and
5; the location-keyed map used by the matcher stores score 5 (the later
item silently overwrites the earlier one), not the sum 8. -/
theorem c3_collision_counterexample :
    PVDI.last_score [⟨"a", 3, 0⟩, ⟨"a", 5, 0⟩] "a" = 5 ∧ (5 : ℚ) ≠ 3 + 5 := by
  refine ⟨by decide, by norm_num⟩

/-- C3 (amended): two items with the same identity key in one snapshot are
not merged by summing; the location-keyed dict keeps only the item that
occurs last in input order (a deterministic silent overwrite): appending an
item to any snapshot makes its score the stored score at its location. -/
theorem c3_collision_amended :
    ∀ (l : List PVDI.Item) (it : PVDI.Item),
      PVDI.last_score (l ++ [it]) it.location = it.score := by
  intro l it
  unfold PVDI.last_score
  rw [List.foldl_append]
  simp

/-- C4: the matcher's three identity sets — resolved = before keys minus
after keys, new = after keys minus before keys, common = intersection —
are pairwise disjoint and their union is the union of before and after
keys, both in compare_debt.analyze_changes and for the location-keyed maps
of identify_improvements. -/
theorem c4_identity_partition :
    ∀ (b a : List CD.Item) (pb pa : List PVDI.Item),
      Disjoint (CD.resolved_keys b a) (CD.new_keys b a) ∧
      Disjoint (CD.resolved_keys b a) (CD.common_keys b a) ∧
      Disjoint (CD.new_keys b a) (CD.common_keys b a) ∧
      (CD.resolved_keys b a ∪ CD.new_keys b a ∪ CD.common_keys b a =
        CD.keys b ∪ CD.keys a) ∧
      Disjoint (PVDI.resolved_locations pb pa) (PVDI.new_locations pb pa) ∧
      Disjoint (PVDI.resolved_locations pb pa) (PVDI.common_locations pb pa) ∧
      Disjoint (PVDI.new_locations pb pa) (PVDI.common_locations pb pa) ∧
      (PVDI.resolved_locations pb pa ∪ PVDI.new_locations pb pa ∪
          PVDI.common_locations pb pa =
        PVDI.locations pb ∪ PVDI.locations pa) := by
  intro b a pb pa
  obtain ⟨h1, h2, h3, h4⟩ := finset_partition (CD.keys b) (CD.keys a)
  obtain ⟨g1, g2, g3, g4⟩ := finset_partition (PVDI.locations pb) (PVDI.locations pa)
  exact ⟨h1, h2, h3, h4, g1, g2, g3, g4⟩

/-- C5 counterexample: with 2 new critical items,
prodigy_validate_debtmap.py's no-new-critical component is 75, while the
claimed schedule max(0, 100 − 25×2) gives 50. -/
theorem c5_new_critical_penalty_counterexample :
    PVD.no_regression_component 2 = 75 ∧ max (0 : ℚ) (100 - 25 * 2) = 50 ∧ (75 : ℚ) ≠ 50 := by
  refine ⟨?_, by norm_num, by norm_num⟩
  norm_num [PVD.no_regression_component]

/-- C5 (amended): in prodigy-validate-debtmap-improvement.py the
no-new-critical sub-score is 100 with zero new critical items and otherwise
max(0, 100 − 25×count), saturating at 0 from 4 new critical items on; but
in prodigy_validate_debtmap.py the penalty is a flat 25 whenever at least
one new critical item exists, so that component is 75 for every positive
count and never decreases further. -/
theorem c5_new_critical_penalty_amended :
    ∀ n : ℕ,
      PVDI.no_regression_score n = (if n = 0 then 100 else max 0 (100 - (n : ℚ) * 25)) ∧
      PVDI.no_regression_score (n + 4) = 0 ∧
      PVD.no_regression_component (n + 1) = 75 ∧
      PVD.no_regression_component 0 = 100 := by
  intro n
  refine ⟨rfl, ?_, ?_, ?_⟩
  · unfold PVDI.no_regression_score
    rw [if_neg (by omega)]
    apply max_eq_left
    have h : (0 : ℚ) ≤ (n : ℚ) := Nat.cast_nonneg n
    push_cast
    linarith
  · unfold PVD.no_regression_component
    rw [if_pos (Nat.succ_pos n)]
    norm_num
  · unfold PVD.no_regression_component
    norm_num

/-- C6 counterexample: at composite score 0, DebtmapValidator.validate's
status mapping yields "insufficient", not the claimed "failed". -/
theorem c6_status_mapping_counterexample :
    VDI.status_of 0 = "insufficient" ∧ ("insufficient" : String) ≠ "failed" := by
  refine ⟨by norm_num [VDI.status_of], by simp⟩

/-- C6 (amended): determine_status produces exactly "complete" iff
score ≥ 75, "incomplete" iff 40 ≤ score < 75, "failed" iff score < 40, and
no other value; but DebtmapValidator.validate labels scores below 40
"insufficient" — it never produces "failed". -/
theorem c6_status_mapping_amended :
    ∀ s : ℚ,
      (PVDI.determine_status s = "complete" ↔ 75 ≤ s) ∧
      (PVDI.determine_status s = "incomplete" ↔ (40 ≤ s ∧ s < 75)) ∧
      (PVDI.determine_status s = "failed" ↔ s < 40) ∧
      (PVDI.determine_status s = "complete" ∨ PVDI.determine_status s = "incomplete" ∨
        PVDI.determine_status s = "failed") ∧
      (VDI.status_of s = "insufficient" ↔ s < 40) ∧
      VDI.status_of s ≠ "failed" := by
  intro s
  rcases le_or_lt 75 s with h1 | h1
  · have h2 : 40 ≤ s := by linarith
    have h3 : ¬ s < 40 := by linarith
    have h4 : ¬ s < 75 := by linarith
    simp [PVDI.determine_status, VDI.status_of, h1, h2, h3, h4]
  · rcases le_or_lt 40 s with h2 | h2
    · have h3 : ¬ 75 ≤ s := not_le.mpr h1
      have h5 : ¬ s < 40 := by linarith
      simp [PVDI.determine_status, VDI.status_of, h1, h2, h3, h5]
    · have h3 : ¬ 75 ≤ s := by linarith
      have h4 : ¬ 40 ≤ s := not_le.mpr h2
      simp [PVDI.determine_status, VDI.status_of, h2, h3, h4]

/-- C7: for a fixed before snapshot, decreasing the score of any single
item of the after snapshot (same location and complexity, smaller or equal
score) never decreases the composite improvement score. -/
theorem c7_composite_monotone :
    ∀ (before after : List PVDI.Item) (i : ℕ) (hi : i < after.length) (it : PVDI.Item),
      it.location = (after.get ⟨i, hi⟩).location →
      it.complexity = (after.get ⟨i, hi⟩).complexity →
      it.score ≤ (after.get ⟨i, hi⟩).score →
      PVDI.calculate_improvement_score before after ≤
        PVDI.calculate_improvement_score before (after.set i it) := by
  intro before after i hi it hl hc hs
  exact PVDI.composite_mono before (PVDI.forall₂_set after i hi it hl hc hs)

/-- C7 witness: lowering the single after item's score from 9 to 3 does not
decrease the composite. -/
theorem c7_composite_monotone_witness :
    PVDI.calculate_improvement_score [⟨"b", 10, 4⟩] [⟨"n", 9, 2⟩] ≤
      PVDI.calculate_improvement_score [⟨"b", 10, 4⟩] ([⟨"n", 9, 2⟩].set 0 ⟨"n", 3, 2⟩) :=
  c7_composite_monotone [⟨"b", 10, 4⟩] [⟨"n", 9, 2⟩] 0 (by simp) ⟨"n", 3, 2⟩
    rfl rfl (by norm_num)

/-- C8: the composite improvement score is always within [0, 100] (so the
produced completion percentage is finite and non-negative), and every ratio
in calculate_improvement_score / calculate_metrics is guarded: a zero
denominator (no critical items before, zero total score, zero average
complexity, empty snapshot) yields 0 rather than a division. -/
theorem c8_division_guards :
    ∀ (before after : List PVDI.Item) (r : ℕ) (x y : ℚ),
      0 ≤ PVDI.calculate_improvement_score before after ∧
      PVDI.calculate_improvement_score before after ≤ 100 ∧
      PVDI.resolved_priority_score r 0 = 0 ∧
      PVDI.score_improvement_pct 0 x = 0 ∧
      PVDI.complexity_improvement_pct 0 y = 0 ∧
      PVDI.total_score [] = 0 ∧
      PVDI.average_complexity [] = 0 ∧
      PVDI.critical_items [] = 0 := by
  intro before after r x y
  refine ⟨PVDI.composite_nonneg before after, PVDI.composite_le_100 before after,
    ?_, ?_, ?_, rfl, rfl, rfl⟩
  · simp [PVDI.resolved_priority_score]
  · simp [PVDI.score_improvement_pct]
  · simp [PVDI.complexity_improvement_pct]

/-- C9 counterexample: the gap identifier is derived from the location with
':' and '/' both mapped to '_'; the two distinct locations "a:f:1" and
"a/f:1" therefore produce the same identifier, refuting uniqueness across
distinct gapped locations. -/
theorem c9_gap_identifier_counterexample :
    PVDI.sanitize_location "a:f:1" = PVDI.sanitize_location "a/f:1" ∧
      ("a:f:1" : String) ≠ "a/f:1" := by
  refine ⟨rfl, by decide⟩

/-- C9 (amended): gap identifiers of
prodigy-validate-debtmap-improvement.py are deterministic functions of the
gapped items' locations and severity class only — permuting the input item
groups leaves the identifier set unchanged — but they are not injective on
locations: distinct locations that agree after mapping ':' and '/' to '_'
collide, and the other two validator variants use enumeration indices
rather than locations. -/
theorem c9_gap_identifier_amended :
    ∀ (uc uc' : List PVDI.Item) (imp imp' : List PVDI.ImprovedRecord)
      (ni ni' : List PVDI.Item),
      uc.Perm uc' → imp.Perm imp' → ni.Perm ni' →
      PVDI.gap_key_set uc imp ni = PVDI.gap_key_set uc' imp' ni' := by
  intro uc uc' imp imp' ni ni' h1 h2 h3
  unfold PVDI.gap_key_set
  rw [List.toFinset_eq_of_perm _ _ (h1.map _), List.toFinset_eq_of_perm _ _ ((h2.filter _).map _),
    List.toFinset_eq_of_perm _ _ ((h3.filter _).map _)]

/-- C9 witness: swapping two unchanged-critical items leaves the gap key
set unchanged. -/
theorem c9_gap_identifier_witness :
    PVDI.gap_key_set [⟨"x:f:1", 9, 0⟩, ⟨"y:g:2", 8, 0⟩] [] [] =
      PVDI.gap_key_set [⟨"y:g:2", 8, 0⟩, ⟨"x:f:1", 9, 0⟩] [] [] :=
  c9_gap_identifier_amended _ _ _ _ _ _
    (List.Perm.swap (⟨"y:g:2", 8, 0⟩ : PVDI.Item) (⟨"x:f:1", 9, 0⟩ : PVDI.Item) [])
    (List.Perm.refl []) (List.Perm.refl [])

/-- C10: a document that parses to a falsy JSON value — in particular the
empty object — is handled exactly like an unreadable file: main produces
the minimal failure document (completion percentage 0, status "failed",
empty gaps, issue "Unable to load debtmap JSON files") and never reaches
the snapshot comparison. -/
theorem c10_falsy_document :
    ∀ (v : PVDI.JValue) (other : Option PVDI.JValue),
      PVDI.truthy v = false →
      PVDI.main_validation (some v) other = .failure PVDI.unable_to_load_result ∧
      PVDI.main_validation (some v) other = PVDI.main_validation none other ∧
      PVDI.truthy (PVDI.JValue.obj []) = false := by
  intro v other h
  refine ⟨?_, ?_, rfl⟩ <;> cases other <;> simp [PVDI.main_validation, h]

/-- C10 witness: a before document parsing to the empty JSON object,
against a well-formed after document, produces exactly the minimal failure
result. -/
theorem c10_falsy_document_witness :
    PVDI.main_validation (some (PVDI.JValue.obj []))
        (some (PVDI.JValue.obj [("items", PVDI.JValue.arr [])])) =
      PVDI.MainOutcome.failure PVDI.unable_to_load_result :=
  (c10_falsy_document (PVDI.JValue.obj [])
    (some (PVDI.JValue.obj [("items", PVDI.JValue.arr [])])) rfl).1
